import Mathlib

/-!
Verification of the stone-connect heater client library.

The Python sources (stone_connect/client.py, stone_connect/models.py,
stone_connect/exceptions.py) are shallowly embedded below.  JSON values
and Python run-time values appearing in parsed payloads are modelled by
the type `JVal` (Python `None` and JSON `null` are both `JVal.null`,
which matches the code: `dict.get` returns `None` both for an absent key
and for a JSON null).  Fallible Python code is modelled with `Except`
over the error type `StoneErr`, whose constructors cover the library's
own exception classes as well as the Python built-in exceptions that the
code can let escape (KeyError, TypeError, AttributeError) and the
aiohttp ClientError family.  Numbers are modelled by `Rat`; Python float
rendering inside f-strings is modelled by `pyRepr`.
-/

/-- Model of a parsed JSON value / Python object appearing in payloads. -/
inductive JVal where
  | null : JVal
  | bool (b : Bool) : JVal
  | num (q : Rat) : JVal
  | str (s : String) : JVal
  | arr (xs : List JVal) : JVal
  | obj (fs : List (String × JVal)) : JVal

/-- Errors observable from the embedded code: the library's exception
classes (stone_connect/exceptions.py) plus Python built-ins and the
aiohttp client-error family that the code can raise or wrap. -/
inductive StoneErr where
  | connection (msg : String) : StoneErr
  | authentication (msg : String) : StoneErr
  | api (msg : String) : StoneErr
  | validation (msg : String) : StoneErr
  | pyKeyError (key : String) : StoneErr
  | pyTypeError (msg : String) : StoneErr
  | pyAttributeError (msg : String) : StoneErr
  deriving DecidableEq

/-- First-match association lookup, the model of Python dict lookup
(JSON objects parse to dicts with string keys). -/
def jlookup : List (String × JVal) → String → Option JVal
  | [], _ => none
  | (k, v) :: t, key => if k = key then some v else jlookup t key

/-- Python `data.get(key)` on a dict: absent key gives `None`. -/
def dget (d : List (String × JVal)) (key : String) : JVal :=
  (jlookup d key).getD JVal.null

/-- Python truthiness (`if x:`) of a payload value. -/
def pyTruthy : JVal → Bool
  | .null => false
  | .bool b => b
  | .num q => decide (q ≠ 0)
  | .str s => decide (s ≠ "")
  | .arr xs => !xs.isEmpty
  | .obj fs => !fs.isEmpty

/-- Numeric view of a Python value: ints/floats are numbers and bool is
an int subclass (True = 1, False = 0); everything else is non-numeric
and makes `<` / `/` raise TypeError. -/
def toPyNumber : JVal → Option Rat
  | .num q => some q
  | .bool b => some (if b then 1 else 0)
  | _ => none

/-- Rendering of a value inside an f-string (model of Python `str`;
the exact float spelling is a rendering detail of the model). -/
def pyRepr : JVal → String
  | .null => "None"
  | .bool b => if b then "True" else "False"
  | .num q => toString q
  | .str s => s
  | .arr _ => "[...]"
  | .obj _ => "..."

/-!  ## models.py : enums  -/

/-- Embeds `OperationMode` (models.py): the eleven heater operation modes. -/
inductive OperationMode where
  | ANTIFREEZE | BOOST | COMFORT | ECO | HIGH | HOLIDAY
  | LOW | MANUAL | MEDIUM | SCHEDULE | STANDBY
  deriving DecidableEq

namespace OperationMode

/-- The wire value of each mode (the enum member values in models.py). -/
def value : OperationMode → String
  | .ANTIFREEZE => "ANF"
  | .BOOST => "BST"
  | .COMFORT => "CMF"
  | .ECO => "ECO"
  | .HIGH => "HIG"
  | .HOLIDAY => "HOL"
  | .LOW => "LOW"
  | .MANUAL => "MAN"
  | .MEDIUM => "MED"
  | .SCHEDULE => "SCH"
  | .STANDBY => "SBY"

/-- Embeds `OperationMode.is_power_mode` (models.py). -/
def is_power_mode (m : OperationMode) : Bool :=
  m = HIGH ∨ m = MEDIUM ∨ m = LOW

/-- Embeds `OperationMode.is_preset_mode` (models.py). -/
def is_preset_mode (m : OperationMode) : Bool :=
  m = COMFORT ∨ m = ECO ∨ m = ANTIFREEZE

/-- Embeds `OperationMode.is_custom_mode` (models.py). -/
def is_custom_mode (m : OperationMode) : Bool :=
  m = MANUAL ∨ m = BOOST

end OperationMode

/-- The eleven enum members, in declaration order. -/
def opModeMembers : List OperationMode :=
  [.ANTIFREEZE, .BOOST, .COMFORT, .ECO, .HIGH, .HOLIDAY,
   .LOW, .MANUAL, .MEDIUM, .SCHEDULE, .STANDBY]

/-- The Python enum constructor call `OperationMode(x)`: looks `x` up
among the member values, otherwise raises ValueError (which every call
site catches, so the model returns an `Option`). -/
def opModeOfJVal : JVal → Option OperationMode
  | .str s => opModeMembers.find? fun m => m.value = s
  | _ => none

/-- Embeds `UseMode` (models.py). -/
inductive UseMode where
  | SETPOINT | POWER
  deriving DecidableEq

/-- The wire value of each `UseMode` member (models.py). -/
def UseMode.value : UseMode → String
  | .SETPOINT => "SET"
  | .POWER => "POW"

/-- The two enum members, in declaration order. -/
def useModeMembers : List UseMode := [.SETPOINT, .POWER]

/-- The Python enum constructor call `UseMode(x)` under the caller's
try/except ValueError. -/
def useModeOfJVal : JVal → Option UseMode
  | .str s => useModeMembers.find? fun m => m.value = s
  | _ => none

/-!  ## models.py : parse helpers  -/

/-- Embeds `parse_timestamp` (models.py): `None` maps to `None`; a number is
divided by 1000 and converted with `datetime.fromtimestamp` (a datetime
is modelled as its epoch-seconds value); a non-numeric non-None value
makes the `/ 1000` raise TypeError, which no caller catches. -/
def parse_timestamp : JVal → Except StoneErr (Option Rat)
  | .null => .ok none
  | v => match toPyNumber v with
      | some q => .ok (some (q / 1000))
      | none => .error (.pyTypeError "unsupported operand type for /")

/-- Python `data[key]` on a dict: KeyError when the key is absent. -/
def jindex (d : List (String × JVal)) (key : String) : Except StoneErr JVal :=
  match jlookup d key with
  | some v => .ok v
  | none => .error (.pyKeyError key)

/-- A Python list comprehension `[f(x) for x in xs]` over fallible `f`:
elements left to right, the first exception propagates. -/
def mapExcept (f : α → Except StoneErr β) : List α → Except StoneErr (List β)
  | [] => .ok []
  | a :: t => do
      let b ← f a
      let bs ← mapExcept f t
      .ok (b :: bs)

/-- Python iteration `for x in v`: lists yield elements, strings yield
one-character strings, dicts yield keys, all else raises TypeError. -/
def pyIter : JVal → Except StoneErr (List JVal)
  | .arr xs => .ok xs
  | .str s => .ok (s.data.map fun c => JVal.str (String.singleton c))
  | .obj fs => .ok (fs.map fun p => JVal.str p.1)
  | _ => .error (.pyTypeError "object is not iterable")

/-!  ## models.py : dataclasses  -/

/-- Embeds `HolidaySettings` (models.py).  Defaults mirror the dataclass
defaults (`None`). -/
structure HolidaySettings where
  holiday_start : Option Rat := none
  holiday_end : Option Rat := none
  operative_mode : JVal := JVal.null

/-- Embeds `HolidaySettings.from_dict` (models.py).  `data.get` on a non-dict
raises AttributeError; the timestamp parses can raise TypeError. -/
def HolidaySettings.from_dict (v : JVal) : Except StoneErr HolidaySettings :=
  match v with
  | .obj d => do
      let hs ← parse_timestamp (dget d "Holiday_Start")
      let he ← parse_timestamp (dget d "Holiday_End")
      .ok { holiday_start := hs, holiday_end := he,
            operative_mode := dget d "Operative_Mode" }
  | _ => .error (.pyAttributeError "object has no attribute get")

/-- Embeds `ScheduleSlot` (models.py).  The dataclass has no defaults; field
values are stored verbatim (Python does not check the annotations). -/
structure ScheduleSlot where
  hour : JVal
  minute : JVal
  set_point : JVal

/-- Embeds `ScheduleSlot.from_dict` (models.py): uses `data[...]` indexing, so
a missing key raises KeyError and a non-dict raises TypeError. -/
def ScheduleSlot.from_dict (v : JVal) : Except StoneErr ScheduleSlot :=
  match v with
  | .obj d => do
      let h ← jindex d "hour"
      let m ← jindex d "minute"
      let sp ← jindex d "set_point"
      .ok { hour := h, minute := m, set_point := sp }
  | _ => .error (.pyTypeError "object is not subscriptable")

/-- Embeds `ScheduleSlot.to_dict` (models.py). -/
def ScheduleSlot.to_dict (s : ScheduleSlot) : JVal :=
  .obj [("hour", s.hour), ("minute", s.minute), ("set_point", s.set_point)]

/-- Embeds `ScheduleDay` (models.py). -/
structure ScheduleDay where
  week_day : JVal
  schedule_slots : List ScheduleSlot

/-- Embeds `ScheduleDay.from_dict` (models.py): `data["week_day"]` raises
KeyError when absent; `data.get("schedule_slots", [])` defaults to an
empty list, and each element goes through `ScheduleSlot.from_dict`. -/
def ScheduleDay.from_dict (v : JVal) : Except StoneErr ScheduleDay :=
  match v with
  | .obj d => do
      let wd ← jindex d "week_day"
      let raw := (jlookup d "schedule_slots").getD (JVal.arr [])
      let items ← pyIter raw
      let slots ← mapExcept ScheduleSlot.from_dict items
      .ok { week_day := wd, schedule_slots := slots }
  | _ => .error (.pyTypeError "object is not subscriptable")

/-- Embeds `ScheduleDay.to_dict` (models.py). -/
def ScheduleDay.to_dict (d : ScheduleDay) : JVal :=
  .obj [("week_day", d.week_day),
        ("schedule_slots", .arr (d.schedule_slots.map ScheduleSlot.to_dict))]

/-- Embeds `Info` (models.py): every field defaults to `None`; plain fields
store the payload value verbatim (`data.get`), enum fields go through
the guarded enum constructors, timestamps through `parse_timestamp`. -/
structure Info where
  client_id : JVal := JVal.null
  operative_mode : Option OperationMode := none
  set_point : JVal := JVal.null
  use_mode : Option UseMode := none
  home_id : JVal := JVal.null
  zone_id : JVal := JVal.null
  appliance_id : JVal := JVal.null
  temperature_unit : JVal := JVal.null
  is_installed : JVal := JVal.null
  comfort_setpoint : JVal := JVal.null
  eco_setpoint : JVal := JVal.null
  antifreeze_setpoint : JVal := JVal.null
  boost_timer : JVal := JVal.null
  high_power : JVal := JVal.null
  medium_power : JVal := JVal.null
  low_power : JVal := JVal.null
  mac_address : JVal := JVal.null
  pcb_pn : JVal := JVal.null
  pcb_version : JVal := JVal.null
  fw_pn : JVal := JVal.null
  fw_version : JVal := JVal.null
  holiday : Option HolidaySettings := none
  latitude : JVal := JVal.null
  longitude : JVal := JVal.null
  altitude : JVal := JVal.null
  gps_precision : JVal := JVal.null
  set_timezone : JVal := JVal.null
  load_size_watt : JVal := JVal.null
  home_name : JVal := JVal.null
  zone_name : JVal := JVal.null
  appliance_name : JVal := JVal.null
  appliance_pn : JVal := JVal.null
  appliance_sn : JVal := JVal.null
  housing_pn : JVal := JVal.null
  housing_sn : JVal := JVal.null
  last_update : Option Rat := none

/-- The `Holiday` handling in `Info.from_dict` (models.py):
`HolidaySettings.from_dict(holiday_data) if holiday_data else None`. -/
def holidayStep (hv : JVal) : Except StoneErr (Option HolidaySettings) :=
  if pyTruthy hv then (HolidaySettings.from_dict hv).map some else pure none

/-- Embeds `Info.from_dict` (models.py).  The two enum conversions are inside
try/except ValueError; the `Holiday` sub-payload is parsed when truthy;
`parse_timestamp` on `Last_Update` runs last and can raise TypeError. -/
def Info.from_dict (v : JVal) : Except StoneErr Info :=
  match v with
  | .obj d => do
      let om := opModeOfJVal (dget d "Operative_Mode")
      let um := useModeOfJVal (dget d "Use_Mode")
      let holiday ← holidayStep (dget d "Holiday")
      let lu ← parse_timestamp (dget d "Last_Update")
      .ok { client_id := dget d "Client_ID"
            operative_mode := om
            set_point := dget d "Set_Point"
            use_mode := um
            home_id := dget d "Home_ID"
            zone_id := dget d "Zone_ID"
            appliance_id := dget d "Appliance_ID"
            temperature_unit := dget d "Temperature_Unit"
            is_installed := dget d "Is_Installed"
            comfort_setpoint := dget d "Comfort_Setpoint"
            eco_setpoint := dget d "Eco_Setpoint"
            antifreeze_setpoint := dget d "Antifreeze_Setpoint"
            boost_timer := dget d "Boost_Timer"
            high_power := dget d "High_Power"
            medium_power := dget d "Medium_Power"
            low_power := dget d "Low_Power"
            mac_address := dget d "MAC_Address"
            pcb_pn := dget d "PCB_PN"
            pcb_version := dget d "PCB_Version"
            fw_pn := dget d "FW_PN"
            fw_version := dget d "FW_Version"
            holiday := holiday
            latitude := dget d "Latitude"
            longitude := dget d "Longitude"
            altitude := dget d "Altitude"
            gps_precision := dget d "GPS_Precision"
            set_timezone := dget d "Set_Timezone"
            load_size_watt := dget d "Load_Size_Watt"
            home_name := dget d "Home_Name"
            zone_name := dget d "Zone_Name"
            appliance_name := dget d "Appliance_Name"
            appliance_pn := dget d "Appliance_PN"
            appliance_sn := dget d "Appliance_SN"
            housing_pn := dget d "Housing_PN"
            housing_sn := dget d "Housing_SN"
            last_update := lu }
  | _ => .error (.pyAttributeError "object has no attribute get")

/-- Embeds `Status` (models.py): every field defaults to `None`. -/
structure Status where
  client_id : JVal := JVal.null
  set_point : JVal := JVal.null
  operative_mode : Option OperationMode := none
  power_consumption_watt : JVal := JVal.null
  daily_energy : JVal := JVal.null
  error_code : JVal := JVal.null
  lock_status : JVal := JVal.null
  rssi : JVal := JVal.null
  connected_to_broker : JVal := JVal.null
  broker_enabled : JVal := JVal.null
  last_update : Option Rat := none

/-- Embeds `Status.from_dict` (models.py). -/
def Status.from_dict (v : JVal) : Except StoneErr Status :=
  match v with
  | .obj d => do
      let om := opModeOfJVal (dget d "Operative_Mode")
      let lu ← parse_timestamp (dget d "Last_Update")
      .ok { client_id := dget d "Client_ID"
            set_point := dget d "Set_Point"
            operative_mode := om
            power_consumption_watt := dget d "Power_Consumption_Watt"
            daily_energy := dget d "Daily_Energy"
            error_code := dget d "Error_Code"
            lock_status := dget d "Lock_Status"
            rssi := dget d "RSSI"
            connected_to_broker := dget d "Connected_To_Broker"
            broker_enabled := dget d "Broker_Enabled"
            last_update := lu }
  | _ => .error (.pyAttributeError "object has no attribute get")

/-- Embeds `Schedule` (models.py). -/
structure Schedule where
  client_id : JVal := JVal.null
  weekly_schedule : Option (List ScheduleDay) := none
  last_update : Option Rat := none

/-- Embeds `Schedule.from_dict` (models.py): the `Weekly_Schedule` list is
parsed only when the key is present (Python `in` test). -/
def Schedule.from_dict (v : JVal) : Except StoneErr Schedule :=
  match v with
  | .obj d => do
      let weekly ← match jlookup d "Weekly_Schedule" with
        | some wv => do
            let items ← pyIter wv
            let days ← mapExcept ScheduleDay.from_dict items
            pure (some days)
        | none => pure none
      let lu ← parse_timestamp (dget d "Last_Update")
      .ok { client_id := dget d "Client_ID"
            weekly_schedule := weekly
            last_update := lu }
  | _ => .error (.pyAttributeError "object has no attribute get")

/-- Embeds `Schedule.to_dict` (models.py): always emits `Client_ID`; emits
`Weekly_Schedule` only when the field is truthy (a non-empty list). -/
def Schedule.to_dict (s : Schedule) : JVal :=
  .obj (("Client_ID", s.client_id) ::
    (match s.weekly_schedule with
     | some l =>
         if l.isEmpty then []
         else [("Weekly_Schedule", JVal.arr (l.map ScheduleDay.to_dict))]
     | none => []))

/-- Embeds `OperationMode.get_preset_setpoint` (models.py): the preset lookup
used by the client; non-preset modes give `None`. -/
def OperationMode.get_preset_setpoint (m : OperationMode) (device_info : Info) : JVal :=
  if m = .COMFORT then device_info.comfort_setpoint
  else if m = .ECO then device_info.eco_setpoint
  else if m = .ANTIFREEZE then device_info.antifreeze_setpoint
  else JVal.null

/-!  ## client.py : temperature validation  -/

namespace StoneConnectHeater

/-- Embeds `StoneConnectHeater._validate_temperature` (client.py): pure check
against the 0..30 range.  Python compares the argument with ints, so a
non-numeric argument raises TypeError; the two error messages embed the
argument via an f-string. -/
def _validate_temperature (temperature : JVal) : Except StoneErr Unit :=
  match toPyNumber temperature with
  | none => .error (.pyTypeError "not supported between instances")
  | some q =>
      if q < 0 then
        .error (.validation
          ("Temperature " ++ pyRepr temperature ++ "°C is below minimum limit of 0°C"))
      else if q > 30 then
        .error (.validation
          ("Temperature " ++ pyRepr temperature ++ "°C is above maximum limit of 30°C"))
      else .ok ()

/-!  ## client.py : the core request primitive `_request`

The HTTP transport (aiohttp) is external to the repository; it is
modelled by its documented contract, which the repository code depends
on in two places:

* `_ensure_session` creates the owned session with
  `raise_for_status=True`, which makes awaiting a request raise
  `aiohttp.ClientResponseError` (a `ClientError`) for every response
  with status >= 400, before the explicit status checks in `_request`
  can run;
* `response.json(content_type="text/json")` raises
  `aiohttp.ContentTypeError` (a `ClientError`) when the response
  content type does not contain `text/json`, returns Python `None` when
  the stripped body is empty, and otherwise raises
  `json.JSONDecodeError` when the body is not valid JSON.

A response is modelled with its status, raw body text, content type and
the JSON parse of the body (`none` when the body is not valid JSON). -/

/-- One HTTP response as seen by `_request`. -/
structure HttpResponse where
  status : Nat
  text : String
  contentType : String
  jsonBody : Option JVal

/-- The transport either delivers a response or raises an
`aiohttp.ClientError` (DNS/TCP/TLS/timeout failure). -/
inductive TransportOutcome where
  | resp (r : HttpResponse) : TransportOutcome
  | netFail (msg : String) : TransportOutcome

/-- The session configuration that matters for `_request`: whether the
session was created with `raise_for_status=True`. -/
structure SessionCfg where
  raiseForStatus : Bool

/-- The session `_ensure_session` creates for itself:
`aiohttp.ClientSession(raise_for_status=True, ...)`. -/
def ownedSessionCfg : SessionCfg := { raiseForStatus := true }

/-- Whether `needle` occurs inside `hay` starting at the head. -/
def leadMatch : List Char → List Char → Bool
  | [], _ => true
  | _ :: _, [] => false
  | a :: as, b :: bs => a = b && leadMatch as bs

/-- Whether `needle` occurs anywhere inside `hay` (Python `in` on
strings, used by aiohttp to match the expected content type). -/
def hasSub : List Char → List Char → Bool
  | [], needle => needle.isEmpty
  | h :: t, needle => leadMatch needle (h :: t) || hasSub t needle

/-- Whether a body is blank after `strip()` (empty or whitespace). -/
def pyBlank (s : String) : Bool := s.data.all fun c => c.isWhitespace

/-- Failure modes of `aiohttp.ClientResponse.json`. -/
inductive AioJsonErr where
  | contentTypeError : AioJsonErr
  | jsonDecodeError : AioJsonErr

/-- Embeds `response.json(content_type="text/json")` per the aiohttp contract:
content-type gate first, then `None` for a blank body, then the JSON
decode of the body. -/
def aiohttp_json (r : HttpResponse) : Except AioJsonErr JVal :=
  if hasSub r.contentType.data "text/json".data = false then
    .error .contentTypeError
  else if pyBlank r.text then .ok JVal.null
  else
    match r.jsonBody with
    | some v => .ok v
    | none => .error .jsonDecodeError

/-- Embeds `StoneConnectHeater._request` (client.py) applied to one transport
outcome.  With `raise_for_status=True` the await of the request itself
raises `ClientResponseError` for status >= 400, which the trailing
`except aiohttp.ClientError` turns into `StoneConnectConnectionError`;
otherwise the explicit 401 / 404 / not-ok checks run, and on success
the body is decoded with `response.json(content_type="text/json")`,
catching only `json.JSONDecodeError`. -/
def _request (cfg : SessionCfg) (tr : TransportOutcome)
    (method endpoint : String) (data : Option JVal) : Except StoneErr JVal :=
  match tr with
  | .netFail msg => .error (.connection ("Connection failed: " ++ msg))
  | .resp r =>
      if cfg.raiseForStatus && decide (400 ≤ r.status) then
        .error (.connection
          ("Connection failed: " ++ toString r.status ++ ", message=" ++ r.text))
      else if r.status = 401 then
        .error (.authentication "Authentication failed")
      else if r.status = 404 then
        .error (.api ("Endpoint not found: " ++ endpoint))
      else if decide (400 ≤ r.status) then
        .error (.api ("API request failed: " ++ toString r.status ++ " - " ++ r.text))
      else
        match aiohttp_json r with
        | .ok v => .ok v
        | .error .jsonDecodeError =>
            if r.text = "" then .ok (JVal.obj [])
            else .ok (JVal.obj [("response", .str r.text)])
        | .error .contentTypeError =>
            .error (.connection
              ("Connection failed: attempt to decode JSON with unexpected mimetype "
                ++ r.contentType))

/-!  ## client.py : the endpoint-level operations

For the mutators the claims are about which `_request` calls are issued
and with which bodies.  `_request` is abstracted by an oracle mapping
(method, endpoint, body) to its outcome — exactly the layer at which
the repository's own test suite patches the client — and every
operation additionally returns the list of `_request` calls it issued,
in order. -/

/-- The outcome of `_request` for each issued call. -/
abbrev Oracle := String → String → Option JVal → Except StoneErr JVal

/-- The `_request` calls issued by an operation, in order. -/
abbrev CallLog := List (String × String × Option JVal)

/-- Embeds `StoneConnectHeater.get_info` (client.py): one GET to `info`, then
`Info.from_dict`; all errors propagate (the except block only logs). -/
def get_info (o : Oracle) : Except StoneErr Info × CallLog :=
  (match o "GET" "info" none with
   | .error e => .error e
   | .ok data => Info.from_dict data,
   [("GET", "info", none)])

/-- Embeds `StoneConnectHeater.get_status` (client.py): one GET to `status`,
then `Status.from_dict`. -/
def get_status (o : Oracle) : Except StoneErr Status × CallLog :=
  (match o "GET" "status" none with
   | .error e => .error e
   | .ok data => Status.from_dict data,
   [("GET", "status", none)])

/-- Embeds `StoneConnectHeater.set_temperature_and_mode` (client.py):
validates the temperature unless the mode is a power mode, fetches the
device info for its `Client_ID`, then PUTs to `setpoint` a body with
`Client_ID`, `Operative_Mode` (the wire value) and `Set_Point` (the
given temperature, or `0` for power modes). -/
def set_temperature_and_mode (o : Oracle) (temperature : JVal)
    (mode : OperationMode) : Except StoneErr Unit × CallLog :=
  match (if mode.is_power_mode then .ok () else _validate_temperature temperature :
      Except StoneErr Unit) with
  | .error e => (.error e, [])
  | .ok _ =>
      match get_info o with
      | (.error e, log) => (.error e, log)
      | (.ok device_info, log) =>
          let sp := if mode.is_power_mode then JVal.num 0 else temperature
          let body := JVal.obj
            [("Client_ID", device_info.client_id),
             ("Operative_Mode", .str mode.value),
             ("Set_Point", sp)]
          let log2 := log ++ [("PUT", "setpoint", some body)]
          match o "PUT" "setpoint" (some body) with
          | .error e => (.error e, log2)
          | .ok _ => (.ok (), log2)

/-- Embeds `StoneConnectHeater.set_operation_mode` (client.py): fetches device
info; for a power mode uses temperature `0.0`; for a preset mode uses
the preset from the info, raising `StoneConnectValidationError` when it
is `None`; otherwise fetches the status and uses
`status.set_point or 20.0` (Python truthiness).  Delegates to
`set_temperature_and_mode`. -/
def set_operation_mode (o : Oracle) (mode : OperationMode) :
    Except StoneErr Unit × CallLog :=
  match get_info o with
  | (.error e, log) => (.error e, log)
  | (.ok device_info, log) =>
      if mode.is_power_mode then
        let (r, l2) := set_temperature_and_mode o (JVal.num 0) mode
        (r, log ++ l2)
      else if mode.is_preset_mode then
        match mode.get_preset_setpoint device_info with
        | .null =>
            (.error (.validation
               ("No preset temperature found for mode " ++ mode.value)), log)
        | p =>
            let (r, l2) := set_temperature_and_mode o p mode
            (r, log ++ l2)
      else
        match get_status o with
        | (.error e, l2) => (.error e, log ++ l2)
        | (.ok status, l2) =>
            let temperature :=
              if pyTruthy status.set_point then status.set_point else JVal.num 20
            let (r, l3) := set_temperature_and_mode o temperature mode
            (r, log ++ l2 ++ l3)

end StoneConnectHeater

/-!  ## client.py : session ownership and the scoped lifecycle

Sessions are identified by numbers; a world records which ids have been
closed and the next fresh id.  `__init__` stores the supplied session
and sets `_owned_session` to whether no session was supplied;
`_ensure_session` creates a fresh session when there is none or the
current one is closed; `close` closes the session only when it is owned
(per the construction-time flag), present and open; `__aexit__` calls
`close` unconditionally, whatever exception the scoped block raised
(Python's async-with runs `__aexit__` on every exit path). -/

namespace StoneConnectHeater

/-- The world of HTTP sessions: ids below `nextId` may exist,
`closedIds` lists the closed ones. -/
structure SessWorld where
  nextId : Nat
  closedIds : List Nat

/-- Embeds `session.closed` for the session with id `i`. -/
def SessWorld.isClosed (w : SessWorld) (i : Nat) : Bool := i ∈ w.closedIds

/-- Well-formedness: only already-created ids are marked closed, so a
freshly created session is open. -/
def SessWorld.wf (w : SessWorld) : Prop := ∀ i ∈ w.closedIds, i < w.nextId

/-- The session-related state of a `StoneConnectHeater` instance. -/
structure ClientSessions where
  _session : Option Nat
  _owned_session : Bool

/-- Embeds `StoneConnectHeater.__init__`: stores the optional caller-supplied
session; `_owned_session = session is None`. -/
def clientInit (session : Option Nat) : ClientSessions :=
  { _session := session, _owned_session := session.isNone }

/-- Embeds `StoneConnectHeater._ensure_session`: creates a fresh session when
there is none or the stored one is closed; the ownership flag is not
touched. -/
def _ensure_session (c : ClientSessions) (w : SessWorld) :
    ClientSessions × SessWorld :=
  match c._session with
  | none =>
      ({ c with _session := some w.nextId },
       { w with nextId := w.nextId + 1 })
  | some i =>
      if w.isClosed i then
        ({ c with _session := some w.nextId },
         { w with nextId := w.nextId + 1 })
      else (c, w)

/-- Embeds `StoneConnectHeater.close`: closes the stored session only when the
client owns it (flag from construction), it exists and it is open; then
forgets it. -/
def close (c : ClientSessions) (w : SessWorld) : ClientSessions × SessWorld :=
  match c._session with
  | some i =>
      if c._owned_session && !(w.isClosed i) then
        ({ c with _session := none },
         { w with closedIds := i :: w.closedIds })
      else (c, w)
  | none => (c, w)

/-- Embeds `StoneConnectHeater.__aexit__`: calls `close` unconditionally; the
exception information of the exit path is ignored. -/
def aexit (c : ClientSessions) (w : SessWorld) (exc : Option String) :
    ClientSessions × SessWorld :=
  let _ := exc
  close c w

/-- One scoped use of the client (`async with StoneConnectHeater(...)`)
whose body finishes with outcome `exc` (`none` = normal completion,
`some msg` = a raised error): `__aenter__` runs `_ensure_session`, then
`__aexit__` runs on the exit path. -/
def scopedRun (session : Option Nat) (w : SessWorld) (exc : Option String) :
    ClientSessions × SessWorld :=
  let (c1, w1) := _ensure_session (clientInit session) w
  aexit c1 w1 exc

end StoneConnectHeater

/-!  ## Auxiliary definitions used by the statements  -/

/-- Payload values on which `parse_timestamp` cannot raise: absent
(`None`) or numeric (bool included). -/
def tsOK : JVal → Bool
  | .null => true
  | .num _ => true
  | .bool _ => true
  | _ => false

/-- Payload values of the `Holiday` field on which the holiday handling
in `Info.from_dict` cannot raise: falsy, or a dict whose two timestamp
fields are absent or numeric. -/
def holidayOK (v : JVal) : Bool :=
  if pyTruthy v then
    match v with
    | .obj d => tsOK (dget d "Holiday_Start") && tsOK (dget d "Holiday_End")
    | _ => false
  else true

/-- Object payloads on which `Info.from_dict` cannot raise. -/
def infoParseOK (d : List (String × JVal)) : Bool :=
  holidayOK (dget d "Holiday") && tsOK (dget d "Last_Update")

/-- Object payloads on which `Status.from_dict` cannot raise. -/
def statusParseOK (d : List (String × JVal)) : Bool :=
  tsOK (dget d "Last_Update")

/-- The (hour, minute, set_point) view of a schedule slot. -/
def slotTriple (sl : ScheduleSlot) : JVal × JVal × JVal :=
  (sl.hour, sl.minute, sl.set_point)

/-- The set of (weekday, slot-list) pairs carried by a `Schedule`
(an absent weekly schedule carries no pairs). -/
def dayPairs (s : Schedule) : List (JVal × List (JVal × JVal × JVal)) :=
  (s.weekly_schedule.getD []).map fun d =>
    (d.week_day, d.schedule_slots.map slotTriple)

/-!  ## Concrete request oracles used by witnesses and counterexamples  -/

/-- A device whose info payload carries only a client id. -/
def oracleBareInfo : StoneConnectHeater.Oracle := fun method endpoint _ =>
  if method = "GET" && endpoint = "info" then
    .ok (JVal.obj [("Client_ID", JVal.str "test_client")])
  else .ok (JVal.obj [])

/-- A device whose info payload has a comfort preset of 19. -/
def oracleComfort19 : StoneConnectHeater.Oracle := fun method endpoint _ =>
  if method = "GET" && endpoint = "info" then
    .ok (JVal.obj [("Client_ID", JVal.str "test_client"),
                   ("Comfort_Setpoint", JVal.num 19)])
  else .ok (JVal.obj [])

/-- A device whose info payload has an out-of-range comfort preset. -/
def oracleComfort35 : StoneConnectHeater.Oracle := fun method endpoint _ =>
  if method = "GET" && endpoint = "info" then
    .ok (JVal.obj [("Client_ID", JVal.str "test_client"),
                   ("Comfort_Setpoint", JVal.num 35)])
  else .ok (JVal.obj [])

/-- A device whose status payload carries a present setpoint of 0. -/
def oracleStatusZero : StoneConnectHeater.Oracle := fun method endpoint _ =>
  if method = "GET" && endpoint = "info" then
    .ok (JVal.obj [("Client_ID", JVal.str "x")])
  else if method = "GET" && endpoint = "status" then
    .ok (JVal.obj [("Set_Point", JVal.num 0)])
  else .ok (JVal.obj [])

/-- A device whose status payload carries a setpoint of 18. -/
def oracleStatus18 : StoneConnectHeater.Oracle := fun method endpoint _ =>
  if method = "GET" && endpoint = "info" then
    .ok (JVal.obj [("Client_ID", JVal.str "x")])
  else if method = "GET" && endpoint = "status" then
    .ok (JVal.obj [("Set_Point", JVal.num 18)])
  else .ok (JVal.obj [])

/-!  ## Helper lemmas  -/

lemma parse_timestamp_ok (v : JVal) (h : tsOK v = true) :
    ∃ r, parse_timestamp v = .ok r := by
  cases v with
  | null => exact ⟨none, rfl⟩
  | num q => exact ⟨some (q / 1000), rfl⟩
  | bool b => exact ⟨some ((if b then 1 else 0) / 1000), rfl⟩
  | str s => simp [tsOK] at h
  | arr xs => simp [tsOK] at h
  | obj fs => simp [tsOK] at h

lemma holidayStep_ok (v : JVal) (h : holidayOK v = true) :
    ∃ x, holidayStep v = .ok x := by
  unfold holidayOK at h
  unfold holidayStep
  by_cases ht : pyTruthy v = true
  · simp only [ht, if_true] at h ⊢
    cases v with
    | obj d =>
        simp only [Bool.and_eq_true] at h
        obtain ⟨r1, h1⟩ := parse_timestamp_ok _ h.1
        obtain ⟨r2, h2⟩ := parse_timestamp_ok _ h.2
        refine ⟨some { holiday_start := r1, holiday_end := r2,
                       operative_mode := dget d "Operative_Mode" }, ?_⟩
        simp only [HolidaySettings.from_dict, h1, h2]
        rfl
    | null => simp at h
    | bool b => simp at h
    | num q => simp at h
    | str s => simp at h
    | arr xs => simp at h
  · simp only [Bool.not_eq_true] at ht
    simp only [ht, if_false]
    exact ⟨none, rfl⟩

lemma info_from_dict_isOk (d : List (String × JVal)) (h : infoParseOK d = true) :
    (Info.from_dict (JVal.obj d)).isOk = true := by
  unfold infoParseOK at h
  simp only [Bool.and_eq_true] at h
  obtain ⟨hol, hhol⟩ := holidayStep_ok _ h.1
  obtain ⟨lu, hlu⟩ := parse_timestamp_ok _ h.2
  simp only [Info.from_dict, hhol, hlu]
  rfl

lemma status_from_dict_isOk (d : List (String × JVal)) (h : statusParseOK d = true) :
    (Status.from_dict (JVal.obj d)).isOk = true := by
  unfold statusParseOK at h
  obtain ⟨lu, hlu⟩ := parse_timestamp_ok _ h
  simp only [Status.from_dict, hlu]
  rfl

lemma opModeOf_str_unknown (s : String)
    (hs : s ∉ opModeMembers.map OperationMode.value) :
    opModeOfJVal (JVal.str s) = none := by
  show opModeMembers.find? (fun m => m.value = s) = none
  rw [List.find?_eq_none]
  intro m hm
  simp only [decide_eq_true_eq]
  intro hv
  exact hs (List.mem_map.mpr ⟨m, hm, hv⟩)

lemma useModeOf_str_unknown (s : String)
    (hs : s ∉ useModeMembers.map UseMode.value) :
    useModeOfJVal (JVal.str s) = none := by
  show useModeMembers.find? (fun m => m.value = s) = none
  rw [List.find?_eq_none]
  intro m hm
  simp only [decide_eq_true_eq]
  intro hv
  exact hs (List.mem_map.mpr ⟨m, hm, hv⟩)

/-- Embeds `_validate_temperature` on a float argument, reduced. -/
lemma validate_num (t : Rat) :
    StoneConnectHeater._validate_temperature (JVal.num t) =
      if t < 0 then
        .error (.validation
          ("Temperature " ++ pyRepr (JVal.num t) ++ "°C is below minimum limit of 0°C"))
      else if t > 30 then
        .error (.validation
          ("Temperature " ++ pyRepr (JVal.num t) ++ "°C is above maximum limit of 30°C"))
      else .ok () := rfl

/-!  ## Claims  -/

/-- C2.  The temperature validator `_validate_temperature` is a pure
function: it accepts every temperature in the closed range 0..30 and
rejects every temperature below 0 (naming the 0°C minimum in the
message) and every temperature above 30 (naming the 30°C maximum); no
request is involved (the function takes no request oracle at all). -/
theorem c2_validate_temperature_range (t : Rat) :
    (0 ≤ t → t ≤ 30 →
      StoneConnectHeater._validate_temperature (JVal.num t) = .ok ()) ∧
    (t < 0 → ∃ p, StoneConnectHeater._validate_temperature (JVal.num t) =
      .error (.validation (p ++ "°C is below minimum limit of 0°C"))) ∧
    (30 < t → ∃ p, StoneConnectHeater._validate_temperature (JVal.num t) =
      .error (.validation (p ++ "°C is above maximum limit of 30°C"))) := by
  refine ⟨fun h0 h30 => ?_, fun h => ?_, fun h => ?_⟩
  · rw [validate_num, if_neg (not_lt.mpr h0), if_neg (not_lt.mpr h30)]
  · exact ⟨"Temperature " ++ pyRepr (JVal.num t), by rw [validate_num, if_pos h]⟩
  · refine ⟨"Temperature " ++ pyRepr (JVal.num t), ?_⟩
    rw [validate_num, if_neg (by linarith : ¬ t < 0), if_pos h]

/-- Witness for C2 at the concrete temperatures 15, -1 and 31. -/
theorem c2_validate_temperature_range_witness :
    StoneConnectHeater._validate_temperature (JVal.num 15) = .ok () ∧
    (∃ p, StoneConnectHeater._validate_temperature (JVal.num (-1)) =
      .error (.validation (p ++ "°C is below minimum limit of 0°C"))) ∧
    (∃ p, StoneConnectHeater._validate_temperature (JVal.num 31) =
      .error (.validation (p ++ "°C is above maximum limit of 30°C"))) :=
  ⟨(c2_validate_temperature_range 15).1 (by norm_num) (by norm_num),
   (c2_validate_temperature_range (-1)).2.1 (by norm_num),
   (c2_validate_temperature_range 31).2.2 (by norm_num)⟩

/-- C4 (counterexample).  Parsing can raise: a `Schedule` payload whose
nested day record lacks `week_day` makes `Schedule.from_dict` raise
KeyError, so it is not true that the record parsers never raise. -/
theorem c4_counterexample :
    Schedule.from_dict (JVal.obj [("Weekly_Schedule", JVal.arr [JVal.obj []])]) =
      .error (.pyKeyError "week_day") := rfl

/-- C4 (amended).  `Info.from_dict` and `Status.from_dict` cannot raise
on object payloads whose timestamp fields (and, for Info, whose
`Holiday` sub-payload) are well-formed; a fully absent payload parses to
the all-absent record; and an unrecognized `Operative_Mode` or
`Use_Mode` string yields an absent enum field rather than an error.
(`Schedule.from_dict`, by contrast, raises KeyError on nested day or
slot records missing their required fields — see the counterexample.) -/
theorem c4_lenient_parsing :
    (∀ d, infoParseOK d = true → (Info.from_dict (JVal.obj d)).isOk = true) ∧
    (∀ d, statusParseOK d = true → (Status.from_dict (JVal.obj d)).isOk = true) ∧
    (Info.from_dict (JVal.obj []) = .ok {} ∧
     Status.from_dict (JVal.obj []) = .ok {} ∧
     Schedule.from_dict (JVal.obj []) = .ok {}) ∧
    (∀ s, s ∉ opModeMembers.map OperationMode.value →
       Info.from_dict (JVal.obj [("Operative_Mode", JVal.str s)]) = .ok {} ∧
       Status.from_dict (JVal.obj [("Operative_Mode", JVal.str s)]) = .ok {}) ∧
    (∀ s, s ∉ useModeMembers.map UseMode.value →
       Info.from_dict (JVal.obj [("Use_Mode", JVal.str s)]) = .ok {}) := by
  refine ⟨info_from_dict_isOk, status_from_dict_isOk, ⟨rfl, rfl, rfl⟩,
    fun s hs => ⟨?_, ?_⟩, fun s hs => ?_⟩
  · have h1 : Info.from_dict (JVal.obj [("Operative_Mode", JVal.str s)]) =
        .ok { operative_mode := opModeOfJVal (JVal.str s) } := rfl
    rw [h1, opModeOf_str_unknown s hs]
  · have h1 : Status.from_dict (JVal.obj [("Operative_Mode", JVal.str s)]) =
        .ok { operative_mode := opModeOfJVal (JVal.str s) } := rfl
    rw [h1, opModeOf_str_unknown s hs]
  · have h1 : Info.from_dict (JVal.obj [("Use_Mode", JVal.str s)]) =
        .ok { use_mode := useModeOfJVal (JVal.str s) } := rfl
    rw [h1, useModeOf_str_unknown s hs]

/-- Witness for C4 at concrete payloads, including the unknown enum
strings used by the repository's own tests. -/
theorem c4_lenient_parsing_witness :
    (Info.from_dict (JVal.obj [("Client_ID", JVal.str "x")])).isOk = true ∧
    (Status.from_dict (JVal.obj [("RSSI", JVal.num (-42))])).isOk = true ∧
    (Info.from_dict (JVal.obj [("Operative_Mode", JVal.str "UNKNOWN_MODE")]) = .ok {} ∧
     Status.from_dict (JVal.obj [("Operative_Mode", JVal.str "UNKNOWN_MODE")]) = .ok {}) ∧
    Info.from_dict (JVal.obj [("Use_Mode", JVal.str "UNKNOWN_USE_MODE")]) = .ok {} :=
  ⟨c4_lenient_parsing.1 _ rfl,
   c4_lenient_parsing.2.1 _ rfl,
   c4_lenient_parsing.2.2.2.1 "UNKNOWN_MODE" (by decide),
   c4_lenient_parsing.2.2.2.2 "UNKNOWN_USE_MODE" (by decide)⟩

/-- C10.  Preset lookup is a pure function of the mode and the `Info`
record: COMFORT/ECO/ANTIFREEZE return the respective preset field and
every other mode returns `None` whatever the info holds; moreover
`is_power_mode`, `is_preset_mode` and `is_custom_mode` are pairwise
exclusive over all eleven modes. -/
theorem c10_preset_lookup_partition :
    (∀ info : Info,
      OperationMode.get_preset_setpoint .COMFORT info = info.comfort_setpoint ∧
      OperationMode.get_preset_setpoint .ECO info = info.eco_setpoint ∧
      OperationMode.get_preset_setpoint .ANTIFREEZE info = info.antifreeze_setpoint) ∧
    (∀ (m : OperationMode) (info : Info), m.is_preset_mode = false →
      m.get_preset_setpoint info = JVal.null) ∧
    (∀ m : OperationMode,
      ¬(m.is_power_mode = true ∧ m.is_preset_mode = true) ∧
      ¬(m.is_power_mode = true ∧ m.is_custom_mode = true) ∧
      ¬(m.is_preset_mode = true ∧ m.is_custom_mode = true)) := by
  refine ⟨fun info => ⟨rfl, rfl, rfl⟩, fun m info hm => ?_, fun m => ?_⟩
  · cases m <;> first | rfl | exact absurd hm (by decide)
  · cases m <;> refine ⟨by decide, by decide, by decide⟩

/-- Witness for C10 at a concrete mode and the all-absent info. -/
theorem c10_preset_lookup_partition_witness :
    OperationMode.get_preset_setpoint .STANDBY {} = JVal.null ∧
    OperationMode.get_preset_setpoint .COMFORT {} = ({} : Info).comfort_setpoint :=
  ⟨c10_preset_lookup_partition.2.1 .STANDBY {} (by decide),
   (c10_preset_lookup_partition.1 {}).1⟩

lemma slot_roundtrip (sl : ScheduleSlot) :
    ScheduleSlot.from_dict sl.to_dict = .ok sl := by
  obtain ⟨h, m, sp⟩ := sl
  rfl

lemma slots_roundtrip (l : List ScheduleSlot) :
    mapExcept ScheduleSlot.from_dict (l.map ScheduleSlot.to_dict) = .ok l := by
  induction l with
  | nil => rfl
  | cons a t ih =>
      simp only [List.map_cons, mapExcept, slot_roundtrip a, ih]
      rfl

lemma day_roundtrip (d : ScheduleDay) :
    ScheduleDay.from_dict d.to_dict = .ok d := by
  obtain ⟨wd, slots⟩ := d
  have h1 : ScheduleDay.from_dict (ScheduleDay.to_dict ⟨wd, slots⟩) =
      Except.bind (mapExcept ScheduleSlot.from_dict (slots.map ScheduleSlot.to_dict))
        (fun ss => .ok { week_day := wd, schedule_slots := ss }) := rfl
  rw [h1, slots_roundtrip]
  rfl

lemma days_roundtrip (l : List ScheduleDay) :
    mapExcept ScheduleDay.from_dict (l.map ScheduleDay.to_dict) = .ok l := by
  induction l with
  | nil => rfl
  | cons a t ih =>
      simp only [List.map_cons, mapExcept, day_roundtrip a, ih]
      rfl

/-- C9.  Encoding a `Schedule` to wire form and decoding it back
succeeds and preserves the list of (weekday, slots) pairs, each slot
read as its (hour, minute, set_point) triple — in particular the sets
of such pairs agree.  (`Last_Update` is not emitted by `to_dict`, and a
`Some []` weekly schedule is encoded like an absent one, both of which
carry the same, empty, set of pairs.) -/
theorem c9_schedule_roundtrip (s : Schedule) :
    ∃ s2, Schedule.from_dict (Schedule.to_dict s) = .ok s2 ∧
      dayPairs s2 = dayPairs s := by
  obtain ⟨c, w, lu⟩ := s
  cases w with
  | none => exact ⟨{ client_id := c }, rfl, rfl⟩
  | some l =>
      cases l with
      | nil => exact ⟨{ client_id := c }, rfl, rfl⟩
      | cons a t =>
          refine ⟨{ client_id := c, weekly_schedule := some (a :: t) }, ?_, rfl⟩
          have h1 : Schedule.from_dict (Schedule.to_dict
              { client_id := c, weekly_schedule := some (a :: t), last_update := lu }) =
              Except.bind
                (mapExcept ScheduleDay.from_dict ((a :: t).map ScheduleDay.to_dict))
                (fun days => Except.ok
                  { client_id := c, weekly_schedule := some days,
                    last_update := none }) := rfl
          rw [h1, days_roundtrip]
          rfl

namespace StoneConnectHeater

lemma get_info_eval (o : Oracle) (d : JVal) (info : Info)
    (hresp : o "GET" "info" none = .ok d)
    (hparse : Info.from_dict d = .ok info) :
    get_info o = (.ok info, [("GET", "info", none)]) := by
  simp only [get_info, hresp, hparse]

lemma get_status_eval (o : Oracle) (ds : JVal) (st : Status)
    (hresp : o "GET" "status" none = .ok ds)
    (hparse : Status.from_dict ds = .ok st) :
    get_status o = (.ok st, [("GET", "status", none)]) := by
  simp only [get_status, hresp, hparse]

lemma set_tam_validation_fail (o : Oracle) (temperature : JVal)
    (mode : OperationMode) (e : StoneErr)
    (hm : mode.is_power_mode = false)
    (hval : _validate_temperature temperature = .error e) :
    set_temperature_and_mode o temperature mode = (.error e, []) := by
  unfold set_temperature_and_mode
  simp only [hm, Bool.false_eq_true, if_false, hval]

lemma set_tam_eval (o : Oracle) (temperature : JVal)
    (mode : OperationMode) (d : JVal) (info : Info)
    (hresp : o "GET" "info" none = .ok d)
    (hparse : Info.from_dict d = .ok info)
    (hval : mode.is_power_mode = true ∨ _validate_temperature temperature = .ok ()) :
    set_temperature_and_mode o temperature mode =
      ((o "PUT" "setpoint" (some (JVal.obj
          [("Client_ID", info.client_id),
           ("Operative_Mode", .str mode.value),
           ("Set_Point", if mode.is_power_mode then JVal.num 0 else temperature)]))).map
        (fun _ => ()),
       [("GET", "info", none),
        ("PUT", "setpoint", some (JVal.obj
          [("Client_ID", info.client_id),
           ("Operative_Mode", .str mode.value),
           ("Set_Point", if mode.is_power_mode then JVal.num 0 else temperature)]))]) := by
  have hv : (if mode.is_power_mode then Except.ok () else
      _validate_temperature temperature : Except StoneErr Unit) = .ok () := by
    rcases hval with h | h
    · simp [h]
    · by_cases hm : mode.is_power_mode = true <;> simp [hm, h]
  unfold set_temperature_and_mode
  rw [hv, get_info_eval o d info hresp hparse]
  cases hput : o "PUT" "setpoint" (some (JVal.obj
      [("Client_ID", info.client_id),
       ("Operative_Mode", .str mode.value),
       ("Set_Point", if mode.is_power_mode then JVal.num 0 else temperature)])) with
  | ok u => simp [hput, Except.map]
  | error e => simp [hput, Except.map]

end StoneConnectHeater

/-- C3.  `set_temperature_and_mode` skips temperature validation for
power modes — whatever the temperature, the PUT body carries the mode's
wire value and `Set_Point` 0 and no ValidationError can arise from the
client — while for every non-power mode the temperature is validated
against 0..30 (in-range values are sent verbatim as `Set_Point`,
out-of-range values raise ValidationError before any request). -/
theorem c3_power_mode_ignores_temperature
    (o : StoneConnectHeater.Oracle) (t : Rat) (mode : OperationMode)
    (d : JVal) (info : Info)
    (hresp : o "GET" "info" none = .ok d)
    (hparse : Info.from_dict d = .ok info) :
    (mode.is_power_mode = true →
      StoneConnectHeater.set_temperature_and_mode o (JVal.num t) mode =
        ((o "PUT" "setpoint" (some (JVal.obj
            [("Client_ID", info.client_id),
             ("Operative_Mode", .str mode.value),
             ("Set_Point", JVal.num 0)]))).map (fun _ => ()),
         [("GET", "info", none),
          ("PUT", "setpoint", some (JVal.obj
            [("Client_ID", info.client_id),
             ("Operative_Mode", .str mode.value),
             ("Set_Point", JVal.num 0)]))])) ∧
    (mode.is_power_mode = false → 0 ≤ t → t ≤ 30 →
      StoneConnectHeater.set_temperature_and_mode o (JVal.num t) mode =
        ((o "PUT" "setpoint" (some (JVal.obj
            [("Client_ID", info.client_id),
             ("Operative_Mode", .str mode.value),
             ("Set_Point", JVal.num t)]))).map (fun _ => ()),
         [("GET", "info", none),
          ("PUT", "setpoint", some (JVal.obj
            [("Client_ID", info.client_id),
             ("Operative_Mode", .str mode.value),
             ("Set_Point", JVal.num t)]))])) ∧
    (mode.is_power_mode = false → (t < 0 ∨ 30 < t) →
      ∃ msg, StoneConnectHeater.set_temperature_and_mode o (JVal.num t) mode =
        (.error (.validation msg), [])) := by
  refine ⟨fun hp => ?_, fun hp h0 h30 => ?_, fun hp hout => ?_⟩
  · have h := StoneConnectHeater.set_tam_eval o (JVal.num t) mode d info hresp hparse
      (Or.inl hp)
    simpa only [hp, if_true] using h
  · have hv : StoneConnectHeater._validate_temperature (JVal.num t) = .ok () := by
      rw [validate_num, if_neg (not_lt.mpr h0), if_neg (not_lt.mpr h30)]
    have h := StoneConnectHeater.set_tam_eval o (JVal.num t) mode d info hresp hparse
      (Or.inr hv)
    simpa only [hp, Bool.false_eq_true, if_false] using h
  · rcases hout with h | h
    · refine ⟨"Temperature " ++ pyRepr (JVal.num t) ++ "°C is below minimum limit of 0°C", ?_⟩
      refine StoneConnectHeater.set_tam_validation_fail o _ mode _ hp ?_
      rw [validate_num, if_pos h]
    · refine ⟨"Temperature " ++ pyRepr (JVal.num t) ++ "°C is above maximum limit of 30°C", ?_⟩
      refine StoneConnectHeater.set_tam_validation_fail o _ mode _ hp ?_
      rw [validate_num, if_neg (by linarith : ¬ t < 0), if_pos h]

/-- Witness for C3: with a bare-info device, HIGH at 999 issues the
PUT with `Set_Point` 0, MANUAL at 22.5 issues it with 22.5, and MANUAL
at 35 fails validation with no request issued. -/
theorem c3_power_mode_ignores_temperature_witness :
    StoneConnectHeater.set_temperature_and_mode oracleBareInfo (JVal.num 999) .HIGH =
      (.ok (),
       [("GET", "info", none),
        ("PUT", "setpoint", some (JVal.obj
          [("Client_ID", JVal.str "test_client"),
           ("Operative_Mode", JVal.str "HIG"),
           ("Set_Point", JVal.num 0)]))]) ∧
    StoneConnectHeater.set_temperature_and_mode oracleBareInfo (JVal.num (45 / 2)) .MANUAL =
      (.ok (),
       [("GET", "info", none),
        ("PUT", "setpoint", some (JVal.obj
          [("Client_ID", JVal.str "test_client"),
           ("Operative_Mode", JVal.str "MAN"),
           ("Set_Point", JVal.num (45 / 2))]))]) ∧
    (∃ msg, StoneConnectHeater.set_temperature_and_mode oracleBareInfo (JVal.num 35) .MANUAL =
      (.error (.validation msg), [])) := by
  refine ⟨?_, ?_, ?_⟩
  · exact (c3_power_mode_ignores_temperature oracleBareInfo 999 .HIGH _
      { client_id := JVal.str "test_client" } rfl rfl).1 rfl
  · exact (c3_power_mode_ignores_temperature oracleBareInfo (45 / 2) .MANUAL _
      { client_id := JVal.str "test_client" } rfl rfl).2.1 rfl (by norm_num) (by norm_num)
  · exact (c3_power_mode_ignores_temperature oracleBareInfo 35 .MANUAL _
      { client_id := JVal.str "test_client" } rfl rfl).2.2 rfl (by norm_num)

namespace StoneConnectHeater

lemma set_om_preset_missing (o : Oracle) (mode : OperationMode)
    (d : JVal) (info : Info)
    (hm : mode.is_preset_mode = true)
    (hresp : o "GET" "info" none = .ok d)
    (hparse : Info.from_dict d = .ok info)
    (hpreset : mode.get_preset_setpoint info = JVal.null) :
    set_operation_mode o mode =
      (.error (.validation ("No preset temperature found for mode " ++ mode.value)),
       [("GET", "info", none)]) := by
  have hpm : mode.is_power_mode = false := by revert hm; cases mode <;> decide
  unfold set_operation_mode
  rw [get_info_eval o d info hresp hparse]
  simp only [hpm, Bool.false_eq_true, if_false, hm, if_true, hpreset]

lemma set_om_preset_found (o : Oracle) (mode : OperationMode)
    (d : JVal) (info : Info) (p : JVal)
    (hm : mode.is_preset_mode = true)
    (hresp : o "GET" "info" none = .ok d)
    (hparse : Info.from_dict d = .ok info)
    (hpreset : mode.get_preset_setpoint info = p)
    (hne : p ≠ JVal.null) :
    set_operation_mode o mode =
      ((set_temperature_and_mode o p mode).1,
       ("GET", "info", none) :: (set_temperature_and_mode o p mode).2) := by
  have hpm : mode.is_power_mode = false := by revert hm; cases mode <;> decide
  unfold set_operation_mode
  rw [get_info_eval o d info hresp hparse]
  simp only [hpm, Bool.false_eq_true, if_false, hm, if_true, hpreset]
  cases p with
  | null => exact absurd rfl hne
  | bool b => cases hr : set_temperature_and_mode o (JVal.bool b) mode with
      | mk r l => simp [hr]
  | num q => cases hr : set_temperature_and_mode o (JVal.num q) mode with
      | mk r l => simp [hr]
  | str s => cases hr : set_temperature_and_mode o (JVal.str s) mode with
      | mk r l => simp [hr]
  | arr xs => cases hr : set_temperature_and_mode o (JVal.arr xs) mode with
      | mk r l => simp [hr]
  | obj fs => cases hr : set_temperature_and_mode o (JVal.obj fs) mode with
      | mk r l => simp [hr]

lemma set_om_other (o : Oracle) (mode : OperationMode)
    (d : JVal) (info : Info) (ds : JVal) (st : Status)
    (hpm : mode.is_power_mode = false)
    (hpr : mode.is_preset_mode = false)
    (hresp : o "GET" "info" none = .ok d)
    (hparse : Info.from_dict d = .ok info)
    (hstat : o "GET" "status" none = .ok ds)
    (hsparse : Status.from_dict ds = .ok st) :
    set_operation_mode o mode =
      ((set_temperature_and_mode o
          (if pyTruthy st.set_point then st.set_point else JVal.num 20) mode).1,
       ("GET", "info", none) :: ("GET", "status", none) ::
         (set_temperature_and_mode o
           (if pyTruthy st.set_point then st.set_point else JVal.num 20) mode).2) := by
  unfold set_operation_mode
  rw [get_info_eval o d info hresp hparse]
  simp only [hpm, hpr, Bool.false_eq_true, if_false]
  rw [get_status_eval o ds st hstat hsparse]
  cases hr : set_temperature_and_mode o
      (if pyTruthy st.set_point then st.set_point else JVal.num 20) mode with
  | mk r l => simp [hr]

end StoneConnectHeater

/-- C6 (counterexample).  With a status payload that carries a present
setpoint of 0, `set_operation_mode(STANDBY)` PUTs `Set_Point` 20 — the
20.0 default is applied to a present-but-zero setpoint, so the default
is not applied "exactly when the setpoint is absent". -/
theorem c6_counterexample :
    Status.from_dict (JVal.obj [("Set_Point", JVal.num 0)]) =
      .ok { set_point := JVal.num 0 } ∧
    StoneConnectHeater.set_operation_mode oracleStatusZero .STANDBY =
      (.ok (),
       [("GET", "info", none), ("GET", "status", none), ("GET", "info", none),
        ("PUT", "setpoint", some (JVal.obj
          [("Client_ID", JVal.str "x"),
           ("Operative_Mode", JVal.str "SBY"),
           ("Set_Point", JVal.num 20)]))]) ∧
    JVal.num 20 ≠ JVal.num 0 := by
  refine ⟨rfl, rfl, ?_⟩
  simp only [ne_eq, JVal.num.injEq]
  norm_num

/-- C6 (amended).  For a mode that is neither a power mode nor a preset
mode, `set_operation_mode` fetches the status and PUTs
`status.set_point or 20.0` as `Set_Point` (when that value passes range
validation): the 20.0 default is applied exactly when the setpoint is
falsy — absent, or equal to 0 — per Python truthiness. -/
theorem c6_other_mode_uses_status_setpoint
    (o : StoneConnectHeater.Oracle) (mode : OperationMode)
    (d : JVal) (info : Info) (ds : JVal) (st : Status)
    (hpm : mode.is_power_mode = false)
    (hpr : mode.is_preset_mode = false)
    (hresp : o "GET" "info" none = .ok d)
    (hparse : Info.from_dict d = .ok info)
    (hstat : o "GET" "status" none = .ok ds)
    (hsparse : Status.from_dict ds = .ok st) :
    (pyTruthy st.set_point = false →
      StoneConnectHeater.set_operation_mode o mode =
        ((o "PUT" "setpoint" (some (JVal.obj
            [("Client_ID", info.client_id),
             ("Operative_Mode", .str mode.value),
             ("Set_Point", JVal.num 20)]))).map (fun _ => ()),
         [("GET", "info", none), ("GET", "status", none), ("GET", "info", none),
          ("PUT", "setpoint", some (JVal.obj
            [("Client_ID", info.client_id),
             ("Operative_Mode", .str mode.value),
             ("Set_Point", JVal.num 20)]))])) ∧
    (pyTruthy st.set_point = true →
     StoneConnectHeater._validate_temperature st.set_point = .ok () →
      StoneConnectHeater.set_operation_mode o mode =
        ((o "PUT" "setpoint" (some (JVal.obj
            [("Client_ID", info.client_id),
             ("Operative_Mode", .str mode.value),
             ("Set_Point", st.set_point)]))).map (fun _ => ()),
         [("GET", "info", none), ("GET", "status", none), ("GET", "info", none),
          ("PUT", "setpoint", some (JVal.obj
            [("Client_ID", info.client_id),
             ("Operative_Mode", .str mode.value),
             ("Set_Point", st.set_point)]))])) := by
  constructor
  · intro htr
    have h20 : StoneConnectHeater._validate_temperature (JVal.num 20) = .ok () := by
      rw [validate_num]
      norm_num
    rw [StoneConnectHeater.set_om_other o mode d info ds st hpm hpr hresp hparse
      hstat hsparse]
    simp only [htr, Bool.false_eq_true, if_false]
    rw [StoneConnectHeater.set_tam_eval o (JVal.num 20) mode d info hresp hparse
      (Or.inr h20)]
    simp only [hpm, Bool.false_eq_true, if_false]
  · intro htr hval
    rw [StoneConnectHeater.set_om_other o mode d info ds st hpm hpr hresp hparse
      hstat hsparse]
    simp only [htr, if_true]
    rw [StoneConnectHeater.set_tam_eval o st.set_point mode d info hresp hparse
      (Or.inr hval)]
    simp only [hpm, Bool.false_eq_true, if_false]

/-- Witness for C6 at a device whose status setpoint is 18. -/
theorem c6_other_mode_uses_status_setpoint_witness :
    StoneConnectHeater.set_operation_mode oracleStatus18 .STANDBY =
      (.ok (),
       [("GET", "info", none), ("GET", "status", none), ("GET", "info", none),
        ("PUT", "setpoint", some (JVal.obj
          [("Client_ID", JVal.str "x"),
           ("Operative_Mode", JVal.str "SBY"),
           ("Set_Point", JVal.num 18)]))]) := by
  have h := (c6_other_mode_uses_status_setpoint oracleStatus18 .STANDBY
      _ { client_id := JVal.str "x" } _ { set_point := JVal.num 18 }
      rfl rfl rfl rfl rfl rfl).2 rfl
      (by rw [validate_num]; norm_num)
  exact h

/-- C7 (counterexample).  With a present comfort preset of 35 the claim
says the value is sent as `Set_Point`; instead `set_operation_mode`
fails range validation after the first info fetch and issues no PUT
(this is also pinned by the repository's own test
`test_set_operation_mode_with_invalid_preset_temperatures`). -/
theorem c7_counterexample :
    Info.from_dict (JVal.obj [("Client_ID", JVal.str "test_client"),
        ("Comfort_Setpoint", JVal.num 35)]) =
      .ok { client_id := JVal.str "test_client", comfort_setpoint := JVal.num 35 } ∧
    StoneConnectHeater.set_operation_mode oracleComfort35 .COMFORT =
      (.error (.validation "Temperature 35°C is above maximum limit of 30°C"),
       [("GET", "info", none)]) :=
  ⟨rfl, rfl⟩

/-- C7 (amended).  For a preset mode, `set_operation_mode` looks up the
matching preset in the fetched info: an absent preset raises
ValidationError mentioning that no preset temperature was found, with
no PUT issued; a present preset that passes range validation is sent as
`Set_Point` of the PUT; a present preset that fails range validation
raises that validation error, again with no PUT issued. -/
theorem c7_preset_mode_setpoint
    (o : StoneConnectHeater.Oracle) (mode : OperationMode)
    (d : JVal) (info : Info)
    (hm : mode.is_preset_mode = true)
    (hresp : o "GET" "info" none = .ok d)
    (hparse : Info.from_dict d = .ok info) :
    (mode.get_preset_setpoint info = JVal.null →
      StoneConnectHeater.set_operation_mode o mode =
        (.error (.validation ("No preset temperature found for mode " ++ mode.value)),
         [("GET", "info", none)])) ∧
    (∀ p, mode.get_preset_setpoint info = p → p ≠ JVal.null →
      StoneConnectHeater._validate_temperature p = .ok () →
      StoneConnectHeater.set_operation_mode o mode =
        ((o "PUT" "setpoint" (some (JVal.obj
            [("Client_ID", info.client_id),
             ("Operative_Mode", .str mode.value),
             ("Set_Point", p)]))).map (fun _ => ()),
         [("GET", "info", none), ("GET", "info", none),
          ("PUT", "setpoint", some (JVal.obj
            [("Client_ID", info.client_id),
             ("Operative_Mode", .str mode.value),
             ("Set_Point", p)]))])) ∧
    (∀ p e, mode.get_preset_setpoint info = p → p ≠ JVal.null →
      StoneConnectHeater._validate_temperature p = .error e →
      StoneConnectHeater.set_operation_mode o mode =
        (.error e, [("GET", "info", none)])) := by
  have hpm : mode.is_power_mode = false := by revert hm; cases mode <;> decide
  refine ⟨fun hnull => ?_, fun p hp hne hval => ?_, fun p e hp hne hval => ?_⟩
  · exact StoneConnectHeater.set_om_preset_missing o mode d info hm hresp hparse hnull
  · rw [StoneConnectHeater.set_om_preset_found o mode d info p hm hresp hparse hp hne]
    rw [StoneConnectHeater.set_tam_eval o p mode d info hresp hparse (Or.inr hval)]
    simp only [hpm, Bool.false_eq_true, if_false]
  · rw [StoneConnectHeater.set_om_preset_found o mode d info p hm hresp hparse hp hne]
    rw [StoneConnectHeater.set_tam_validation_fail o p mode e hpm hval]

/-- Witness for C7: with a comfort preset of 19 the PUT carries 19;
with no preset, the no-preset ValidationError is raised after a single
GET. -/
theorem c7_preset_mode_setpoint_witness :
    StoneConnectHeater.set_operation_mode oracleComfort19 .COMFORT =
      (.ok (),
       [("GET", "info", none), ("GET", "info", none),
        ("PUT", "setpoint", some (JVal.obj
          [("Client_ID", JVal.str "test_client"),
           ("Operative_Mode", JVal.str "CMF"),
           ("Set_Point", JVal.num 19)]))]) ∧
    StoneConnectHeater.set_operation_mode oracleBareInfo .COMFORT =
      (.error (.validation "No preset temperature found for mode CMF"),
       [("GET", "info", none)]) := by
  constructor
  · have h := (c7_preset_mode_setpoint oracleComfort19 .COMFORT
        _ { client_id := JVal.str "test_client", comfort_setpoint := JVal.num 19 }
        rfl rfl rfl).2.1 (JVal.num 19) rfl (by simp)
        (by rw [validate_num]; norm_num)
    exact h
  · exact (c7_preset_mode_setpoint oracleBareInfo .COMFORT
        _ { client_id := JVal.str "test_client" } rfl rfl rfl).1 rfl

/-- C1.  The status-code mapping in `_request` is shadowed by the
session configuration: the session `_ensure_session` creates for the
client sets `raise_for_status=True`, so awaiting the request raises
`aiohttp.ClientResponseError` — a `ClientError` — for every status
>= 400, and the trailing `except aiohttp.ClientError` turns it into
`StoneConnectConnectionError` before the explicit 401/404/other checks
can run.  Only with a caller-supplied session that does not auto-raise
do 401 map to `StoneConnectAuthenticationError`, 404 to
`StoneConnectAPIError` naming the endpoint, and other non-success
statuses to `StoneConnectAPIError` with status and body text, as the
`_request` docstring promises. -/
theorem c1_status_mapping_shadowed_by_raise_for_status :
    (StoneConnectHeater._request StoneConnectHeater.ownedSessionCfg
       (.resp { status := 401, text := "Unauthorized", contentType := "text/json",
                jsonBody := none }) "GET" "info" none =
      .error (.connection "Connection failed: 401, message=Unauthorized")) ∧
    (StoneConnectHeater._request StoneConnectHeater.ownedSessionCfg
       (.resp { status := 404, text := "Not Found", contentType := "text/json",
                jsonBody := none }) "GET" "info" none =
      .error (.connection "Connection failed: 404, message=Not Found")) ∧
    (StoneConnectHeater._request { raiseForStatus := false }
       (.resp { status := 401, text := "Unauthorized", contentType := "text/json",
                jsonBody := none }) "GET" "info" none =
      .error (.authentication "Authentication failed")) ∧
    (StoneConnectHeater._request { raiseForStatus := false }
       (.resp { status := 404, text := "Not Found", contentType := "text/json",
                jsonBody := none }) "GET" "info" none =
      .error (.api "Endpoint not found: info")) ∧
    (StoneConnectHeater._request { raiseForStatus := false }
       (.resp { status := 500, text := "oops", contentType := "text/json",
                jsonBody := none }) "GET" "status" none =
      .error (.api "API request failed: 500 - oops")) :=
  ⟨rfl, rfl, rfl, rfl, rfl⟩

/-- C8 (counterexample).  On a 2xx response with matching content type
and an empty body, the underlying `response.json` call returns Python
`None` (aiohttp returns `None` for a blank body instead of raising
`json.JSONDecodeError`), so `_request` returns `None`, not the empty
record promised by the claim. -/
theorem c8_counterexample :
    StoneConnectHeater._request StoneConnectHeater.ownedSessionCfg
      (.resp { status := 200, text := "", contentType := "text/json",
               jsonBody := none }) "GET" "info" none = .ok JVal.null ∧
    JVal.null ≠ JVal.obj [] :=
  ⟨rfl, by simp⟩

/-- C8 (amended).  On a successful (< 400) response whose content type
matches `text/json` and whose body is not valid JSON: a blank body
yields Python `None` (returned as-is, the `{}` branch being
unreachable), and a non-blank body yields the single-field passthrough
record wrapping the raw text; in both cases no JSON parse exception
reaches the caller. -/
theorem c8_success_body_decoding
    (cfg : StoneConnectHeater.SessionCfg) (r : StoneConnectHeater.HttpResponse)
    (method endpoint : String) (data : Option JVal)
    (hst : r.status < 400)
    (hct : StoneConnectHeater.hasSub r.contentType.data "text/json".data = true)
    (hjson : r.jsonBody = none) :
    (StoneConnectHeater.pyBlank r.text = true →
      StoneConnectHeater._request cfg (.resp r) method endpoint data = .ok JVal.null) ∧
    (StoneConnectHeater.pyBlank r.text = false →
      StoneConnectHeater._request cfg (.resp r) method endpoint data =
        .ok (JVal.obj [("response", .str r.text)])) := by
  have hle : ¬ (400 ≤ r.status) := by omega
  have h401 : ¬ (r.status = 401) := by omega
  have h404 : ¬ (r.status = 404) := by omega
  have hjs : StoneConnectHeater.aiohttp_json r =
      (if StoneConnectHeater.pyBlank r.text then .ok JVal.null
       else .error .jsonDecodeError) := by
    unfold StoneConnectHeater.aiohttp_json
    rw [if_neg (by simp [hct]), hjson]
  constructor
  · intro hb
    simp only [StoneConnectHeater._request]
    rw [if_neg (by simp [hle]), if_neg h401, if_neg h404, if_neg (by simp [hle]),
      hjs, if_pos hb]
  · intro hb
    have hne : ¬ (r.text = "") := by
      intro he
      rw [he] at hb
      exact absurd hb (by decide)
    simp only [StoneConnectHeater._request]
    rw [if_neg (by simp [hle]), if_neg h401, if_neg h404, if_neg (by simp [hle]),
      hjs, if_neg (by simp [hb]), if_neg hne]

/-- Witness for C8 at a blank 204 body and a non-JSON 200 body. -/
theorem c8_success_body_decoding_witness :
    StoneConnectHeater._request StoneConnectHeater.ownedSessionCfg
      (.resp { status := 204, text := " ", contentType := "text/json",
               jsonBody := none }) "PUT" "setpoint" none = .ok JVal.null ∧
    StoneConnectHeater._request StoneConnectHeater.ownedSessionCfg
      (.resp { status := 200, text := "hello", contentType := "text/json",
               jsonBody := none }) "GET" "info" none =
      .ok (JVal.obj [("response", .str "hello")]) :=
  ⟨(c8_success_body_decoding StoneConnectHeater.ownedSessionCfg
      { status := 204, text := " ", contentType := "text/json", jsonBody := none }
      "PUT" "setpoint" none (by norm_num) (by decide) rfl).1 (by decide),
   (c8_success_body_decoding StoneConnectHeater.ownedSessionCfg
      { status := 200, text := "hello", contentType := "text/json", jsonBody := none }
      "GET" "info" none (by norm_num) (by decide) rfl).2 (by decide)⟩

/-- C5 (counterexample).  Constructed with an already-closed
caller-supplied session (id 0), the scoped entry creates a fresh
session (id 1), yet the exit does not close it: the ownership flag is
fixed at construction, so a session the client created for itself is
left open on exit. -/
theorem c5_counterexample :
    (StoneConnectHeater._ensure_session (StoneConnectHeater.clientInit (some 0))
       { nextId := 1, closedIds := [0] }).1._session = some 1 ∧
    (StoneConnectHeater.scopedRun (some 0) { nextId := 1, closedIds := [0] }
       none).2.isClosed 1 = false := by
  exact ⟨rfl, rfl⟩

/-- C5 (amended).  The scoped lifecycle closes, on every exit path, the
session the client created when it was constructed without one, and a
caller-supplied session is never closed (`close` is a no-op whenever
the construction-time ownership flag is false — which also leaves open
any replacement session created after a closed caller-supplied one, see
the counterexample); the exit behaviour is identical for normal
completion and raised errors. -/
theorem c5_session_ownership :
    (∀ (c : StoneConnectHeater.ClientSessions) (w : StoneConnectHeater.SessWorld),
       c._owned_session = false → StoneConnectHeater.close c w = (c, w)) ∧
    (∀ s : Nat, (StoneConnectHeater.clientInit (some s))._owned_session = false) ∧
    (∀ (w : StoneConnectHeater.SessWorld) (exc : Option String) (s : Nat),
       (StoneConnectHeater.scopedRun (some s) w exc).2.isClosed s = w.isClosed s) ∧
    (∀ (w : StoneConnectHeater.SessWorld) (exc : Option String), w.wf →
       (StoneConnectHeater.scopedRun none w exc).2.isClosed w.nextId = true) ∧
    (∀ (c : StoneConnectHeater.ClientSessions) (w : StoneConnectHeater.SessWorld)
       (e1 e2 : Option String),
       StoneConnectHeater.aexit c w e1 = StoneConnectHeater.aexit c w e2) := by
  have hnoop : ∀ (c : StoneConnectHeater.ClientSessions)
      (w : StoneConnectHeater.SessWorld),
      c._owned_session = false → StoneConnectHeater.close c w = (c, w) := by
    intro c w h
    obtain ⟨s, own⟩ := c
    subst h
    cases s <;> simp [StoneConnectHeater.close]
  refine ⟨hnoop, fun s => rfl, fun w exc s => ?_, fun w exc hwf => ?_, fun c w e1 e2 => rfl⟩
  · unfold StoneConnectHeater.scopedRun StoneConnectHeater.aexit
    unfold StoneConnectHeater._ensure_session StoneConnectHeater.clientInit
    by_cases hc : w.isClosed s = true
    · simp only [hc, if_true]
      rw [hnoop _ _ rfl]
      exact hc
    · simp only [hc, Bool.false_eq_true, if_false]
      rw [hnoop _ _ rfl]
      show w.isClosed s = false
      simpa using hc
  · have hmem : w.nextId ∉ w.closedIds := fun hm => absurd (hwf _ hm) (lt_irrefl _)
    unfold StoneConnectHeater.scopedRun StoneConnectHeater.aexit
    unfold StoneConnectHeater._ensure_session StoneConnectHeater.clientInit
    unfold StoneConnectHeater.close
    simp only [StoneConnectHeater.SessWorld.isClosed]
    simp [hmem]

/-- Witness for C5 at concrete worlds: a caller-supplied open session
(id 0) survives a scoped run that raises, and an owned session is
closed by a scoped run that raises. -/
theorem c5_session_ownership_witness :
    (StoneConnectHeater.scopedRun (some 0) { nextId := 1, closedIds := [] }
       (some "boom")).2.isClosed 0 =
      StoneConnectHeater.SessWorld.isClosed { nextId := 1, closedIds := [] } 0 ∧
    (StoneConnectHeater.scopedRun none { nextId := 4, closedIds := [1] }
       (some "boom")).2.isClosed 4 = true ∧
    StoneConnectHeater.close { _session := some 3, _owned_session := false }
      { nextId := 5, closedIds := [] } =
      ({ _session := some 3, _owned_session := false },
       { nextId := 5, closedIds := [] }) :=
  ⟨c5_session_ownership.2.2.1 { nextId := 1, closedIds := [] } (some "boom") 0,
   c5_session_ownership.2.2.2.1 { nextId := 4, closedIds := [1] } (some "boom")
     (by show ∀ i ∈ ([1] : List Nat), i < 4; decide),
   c5_session_ownership.1 { _session := some 3, _owned_session := false }
     { nextId := 5, closedIds := [] } rfl⟩
